import Mathlib

/-!
Verification of the AI document summarizer pipeline (parsers, classifier,
summarizer prompt building, cost accounting, response formatting, batch
endpoint) against its design specification.

Text is modelled as `List Char` (a Python `str` is a sequence of code
points); bytes as `List Nat` (each < 256).  Fallible operations return
`Except String α`, where the error value is the exception message raised
by the source.
-/

set_option maxRecDepth 20000

/-- Whitespace predicate of Python `str.strip()`: the set of code points
Python treats as whitespace for `str` (ASCII whitespace, the C1 controls
0x1c-0x1f and 0x85, NBSP, and the Unicode space separators). -/
def isPyWS (c : Char) : Bool :=
  decide ((9 ≤ c.toNat ∧ c.toNat ≤ 13) ∨ (28 ≤ c.toNat ∧ c.toNat ≤ 31) ∨
    c.toNat = 32 ∨ c.toNat = 133 ∨ c.toNat = 160 ∨ c.toNat = 5760 ∨
    (8192 ≤ c.toNat ∧ c.toNat ≤ 8202) ∨ c.toNat = 8232 ∨ c.toNat = 8233 ∨
    c.toNat = 8239 ∨ c.toNat = 8287 ∨ c.toNat = 12288)

/-- Python `str.strip()`: drop leading and trailing whitespace. -/
def pyStrip (l : List Char) : List Char :=
  (((l.dropWhile isPyWS).reverse).dropWhile isPyWS).reverse

namespace DocumentParser

/-- The meaningful-text threshold of `_parse_pdf`
(`if text and len(text.strip()) > 100`). -/
def meaningfulThreshold : Nat := 100

/-- Embedding of `DocumentParser._parse_pdf_text`.  The PDF is modelled by
the outcome of `page.extract_text()` on each page in page order: `none`
when the per-page extraction raised (the page is skipped by the bare
`except: continue`), `some pt` when it returned the text `pt`.  A page is
appended (followed by a newline) only when its text is truthy and strips
to something non-empty.  A reader-level failure returns the empty string,
which coincides with the empty page list. -/
def parse_pdf_text (pages : List (Option (List Char))) : List Char :=
  pages.foldl (fun acc p =>
    match p with
    | none => acc
    | some pt => if (pyStrip pt).length > 0 then acc ++ pt ++ ['\n'] else acc) []

/-- The message of the exception raised at the end of `_parse_pdf` when no
method yielded text. -/
def pdfGenericError : String := "Could not extract text from PDF using any method"

/-- Embedding of `DocumentParser._parse_pdf`.  `ocr_available` is the
capability flag detected in the constructor; `ocr` is the outcome of
`_parse_pdf_with_ocr` (`Except.error e` when that call raised `e`, which
`_parse_pdf` does not catch and therefore propagates).  The primary text
is accepted when it is non-empty and its stripped length exceeds the
threshold; otherwise, when OCR is available, a truthy OCR text is
returned stripped; in every remaining case the generic exception is
raised. -/
def parse_pdf (pages : List (Option (List Char))) (ocr_available : Bool)
    (ocr : Except String (List Char)) : Except String (List Char) :=
  let text := parse_pdf_text pages
  if text ≠ [] ∧ meaningfulThreshold < (pyStrip text).length then
    .ok (pyStrip text)
  else if ocr_available then
    match ocr with
    | .error e => .error e
    | .ok t => if t ≠ [] then .ok (pyStrip t) else .error pdfGenericError
  else .error pdfGenericError

/-- UTF-8 continuation byte test. -/
def isCont (b : Nat) : Bool := decide (128 ≤ b ∧ b ≤ 191)

/-- Allowed second byte of a 3-byte UTF-8 sequence (excludes overlong
encodings for lead 0xE0 and surrogates for lead 0xED). -/
def lead3SecondOk (b b2 : Nat) : Bool :=
  if b = 0xE0 then decide (0xA0 ≤ b2 ∧ b2 ≤ 0xBF)
  else if b = 0xED then decide (0x80 ≤ b2 ∧ b2 ≤ 0x9F)
  else isCont b2

/-- Allowed second byte of a 4-byte UTF-8 sequence (excludes overlong
encodings for lead 0xF0 and out-of-range points for lead 0xF4). -/
def lead4SecondOk (b b2 : Nat) : Bool :=
  if b = 0xF0 then decide (0x90 ≤ b2 ∧ b2 ≤ 0xBF)
  else if b = 0xF4 then decide (0x80 ≤ b2 ∧ b2 ≤ 0x8F)
  else isCont b2

/-- Strict UTF-8 decoder, as used by `open(..., encoding='utf-8')`:
rejects stray continuation bytes, overlong forms, surrogates and
points beyond U+10FFFF. -/
def utf8Decode : List Nat → Option (List Char)
  | [] => some []
  | b :: t =>
    if b ≤ 0x7F then (utf8Decode t).map (fun r => Char.ofNat b :: r)
    else
      match t with
      | [] => none
      | b2 :: t2 =>
        if 0xC2 ≤ b ∧ b ≤ 0xDF then
          if isCont b2 then
            (utf8Decode t2).map (fun r =>
              Char.ofNat ((b - 0xC0) * 0x40 + (b2 - 0x80)) :: r)
          else none
        else
          match t2 with
          | [] => none
          | b3 :: t3 =>
            if 0xE0 ≤ b ∧ b ≤ 0xEF then
              if lead3SecondOk b b2 && isCont b3 then
                (utf8Decode t3).map (fun r =>
                  Char.ofNat ((b - 0xE0) * 0x1000 + (b2 - 0x80) * 0x40 + (b3 - 0x80)) :: r)
              else none
            else
              match t3 with
              | [] => none
              | b4 :: t4 =>
                if 0xF0 ≤ b ∧ b ≤ 0xF4 then
                  if lead4SecondOk b b2 && isCont b3 && isCont b4 then
                    (utf8Decode t4).map (fun r =>
                      Char.ofNat ((b - 0xF0) * 0x40000 + (b2 - 0x80) * 0x1000 +
                        (b3 - 0x80) * 0x40 + (b4 - 0x80)) :: r)
                  else none
                else none

/-- The latin-1 codec (alias iso-8859-1): every byte maps to the code
point of the same value, so the decode never fails. -/
def latin1Decode (bs : List Nat) : Option (List Char) :=
  if bs.all (fun b => b ≤ 0xFF) then some (bs.map Char.ofNat) else none

/-- One byte of the cp1252 codec: the 0x80-0x9F block maps to the Windows
punctuation repertoire with five undefined bytes, all other bytes as in
latin-1. -/
def cp1252Byte (b : Nat) : Option Char :=
  if b = 0x80 then some (Char.ofNat 0x20AC)
  else if b = 0x81 then none
  else if b = 0x82 then some (Char.ofNat 0x201A)
  else if b = 0x83 then some (Char.ofNat 0x0192)
  else if b = 0x84 then some (Char.ofNat 0x201E)
  else if b = 0x85 then some (Char.ofNat 0x2026)
  else if b = 0x86 then some (Char.ofNat 0x2020)
  else if b = 0x87 then some (Char.ofNat 0x2021)
  else if b = 0x88 then some (Char.ofNat 0x02C6)
  else if b = 0x89 then some (Char.ofNat 0x2030)
  else if b = 0x8A then some (Char.ofNat 0x0160)
  else if b = 0x8B then some (Char.ofNat 0x2039)
  else if b = 0x8C then some (Char.ofNat 0x0152)
  else if b = 0x8D then none
  else if b = 0x8E then some (Char.ofNat 0x017D)
  else if b = 0x8F then none
  else if b = 0x90 then none
  else if b = 0x91 then some (Char.ofNat 0x2018)
  else if b = 0x92 then some (Char.ofNat 0x2019)
  else if b = 0x93 then some (Char.ofNat 0x201C)
  else if b = 0x94 then some (Char.ofNat 0x201D)
  else if b = 0x95 then some (Char.ofNat 0x2022)
  else if b = 0x96 then some (Char.ofNat 0x2013)
  else if b = 0x97 then some (Char.ofNat 0x2014)
  else if b = 0x98 then some (Char.ofNat 0x02DC)
  else if b = 0x99 then some (Char.ofNat 0x2122)
  else if b = 0x9A then some (Char.ofNat 0x0161)
  else if b = 0x9B then some (Char.ofNat 0x203A)
  else if b = 0x9C then some (Char.ofNat 0x0153)
  else if b = 0x9D then none
  else if b = 0x9E then some (Char.ofNat 0x017E)
  else if b = 0x9F then some (Char.ofNat 0x0178)
  else if b ≤ 0xFF then some (Char.ofNat b) else none

/-- The cp1252 codec over a byte string. -/
def cp1252Decode (bs : List Nat) : Option (List Char) :=
  bs.mapM cp1252Byte

/-- Text-mode universal-newline translation performed by
`open(path, 'r', encoding=...).read()` with the default `newline=None`:
every "\r\n" pair and every lone "\r" in the decoded text becomes
"\n". -/
def universalNewlines : List Char → List Char
  | [] => []
  | '\r' :: '\n' :: t => '\n' :: universalNewlines t
  | '\r' :: t => '\n' :: universalNewlines t
  | c :: t => c :: universalNewlines t

/-- One iteration of the loop body of `_parse_txt`: decode under one
encoding (a decode exception is caught by the bare `except: continue`),
apply the text-mode universal-newline translation of `open(..., 'r')`,
strip, and accept only a truthy result. -/
def tryDecode (dec : List Nat → Option (List Char)) (bs : List Nat) :
    Option (List Char) :=
  match dec bs with
  | none => none
  | some s =>
    if pyStrip (universalNewlines s) ≠ [] then some (pyStrip (universalNewlines s))
    else none

/-- The message of the exception raised when `_parse_txt` exhausts all
encodings. -/
def txtDecodeError : String := "Could not decode text file"

/-- Embedding of `DocumentParser._parse_txt`: try the ordered encodings
utf-8, latin-1, cp1252, iso-8859-1 (the last is the same codec as
latin-1) and return the first truthy stripped decode. -/
def parse_txt (bs : List Nat) : Except String (List Char) :=
  match tryDecode utf8Decode bs with
  | some c => .ok c
  | none =>
    match tryDecode latin1Decode bs with
    | some c => .ok c
    | none =>
      match tryDecode cp1252Decode bs with
      | some c => .ok c
      | none =>
        match tryDecode latin1Decode bs with
        | some c => .ok c
        | none => .error txtDecodeError

end DocumentParser

namespace QuestionClassifier

/-- A regex from the classifier pattern table.  Every pattern in the
source is either a literal string or two literals joined by `.*`
(`xây dựng.*kế hoạch` and `nào.*nhất`), so the embedding carries exactly
those two shapes. -/
inductive Pat where
  | lit : String → Pat
  | seq : String → String → Pat
deriving DecidableEq

/-- `re.search` of a literal pattern: the pattern occurs as a contiguous
substring. -/
def isSubstr (p : List Char) : List Char → Bool
  | [] => p.isPrefixOf []
  | c :: t => p.isPrefixOf (c :: t) || isSubstr p t

/-- Match `.*p` at the current position: `p` occurs after zero or more
characters none of which is a newline (`.` does not match a newline). -/
def gapMatch (p : List Char) : List Char → Bool
  | [] => p.isPrefixOf []
  | c :: t => p.isPrefixOf (c :: t) || (c != '\n' && gapMatch p t)

/-- `re.search` of `a.*b`: at some position `a` occurs, followed after a
newline-free gap by `b`. -/
def seqMatch (a b : List Char) : List Char → Bool
  | [] => a.isPrefixOf [] && gapMatch b []
  | c :: t =>
    (a.isPrefixOf (c :: t) && gapMatch b ((c :: t).drop a.length)) ||
    seqMatch a b t

/-- Evaluate one pattern against the (lowercased) question. -/
def patMatch : Pat → List Char → Bool
  | .lit s, hay => isSubstr s.data hay
  | .seq s1 s2, hay => seqMatch s1.data s2.data hay

/-- The ordered pattern table `self.patterns` of `QuestionClassifier`,
with insertion order preserved (Python dicts iterate in insertion
order, which `classify` relies on). -/
def patternsTable : List (String × List Pat) :=
  [("tom_tat", [.lit "tóm tắt", .lit "tổng hợp", .lit "trình bày",
     .lit "nêu rõ", .lit "overview", .lit "summarize"]),
   ("muc_tieu", [.lit "mục tiêu", .lit "mục đích", .lit "định hướng",
     .lit "target", .lit "objective", .lit "goal"]),
   ("cach_thuc_hien", [.lit "làm thế nào", .lit "cách thực hiện",
     .lit "cách làm", .lit "triển khai", .lit "how to", .lit "implementation"]),
   ("ke_hoach", [.lit "kế hoạch", .lit "lộ trình", .lit "roadmap",
     .seq "xây dựng" "kế hoạch", .lit "plan"]),
   ("kho_khan", [.lit "khó khăn", .lit "vướng mắc", .lit "thách thức",
     .lit "hạn chế", .lit "rào cản", .lit "challenge", .lit "difficulty"]),
   ("ket_qua", [.lit "kết quả", .lit "thành tích", .lit "đạt được",
     .lit "hoàn thành", .lit "result", .lit "achievement"]),
   ("so_sanh", [.lit "so sánh", .lit "đối chiếu", .lit "xếp hạng",
     .seq "nào" "nhất", .lit "comparison", .lit "ranking"]),
   ("goi_y", [.lit "gợi ý", .lit "đề xuất", .lit "khuyến nghị",
     .lit "suggestion", .lit "recommendation"]),
   ("hieu_qua", [.lit "hiệu quả", .lit "tác động", .lit "ảnh hưởng",
     .lit "impact", .lit "effect"]),
   ("phuong_an", [.lit "phương án", .lit "giải pháp", .lit "cách khác",
     .lit "lựa chọn", .lit "alternative", .lit "solution"])]

/-- Python `str.lower()` of one character over the Latin repertoire,
possibly expanding (the dotted capital I lowers to two code points).
Agrees with `str.lower` on Basic Latin, Latin-1 Supplement, Latin
Extended-A, the Vietnamese horn letters of Latin Extended-B, and Latin
Extended Additional — the full alphabet of Vietnamese and Western
European text, which the classifier's questions and patterns draw from.
Every other character is kept, which agrees with `str.lower` on every
character that has no lowercase mapping. -/
def lowerChar (c : Char) : List Char :=
  let n := c.toNat
  if 0x41 ≤ n ∧ n ≤ 0x5A then [Char.ofNat (n + 0x20)]
  else if 0xC0 ≤ n ∧ n ≤ 0xDE ∧ n ≠ 0xD7 then [Char.ofNat (n + 0x20)]
  else if n = 0x130 then ['i', Char.ofNat 0x307]
  else if n = 0x178 then [Char.ofNat 0xFF]
  else if 0x100 ≤ n ∧ n ≤ 0x136 ∧ n % 2 = 0 then [Char.ofNat (n + 1)]
  else if 0x139 ≤ n ∧ n ≤ 0x147 ∧ n % 2 = 1 then [Char.ofNat (n + 1)]
  else if 0x14A ≤ n ∧ n ≤ 0x176 ∧ n % 2 = 0 then [Char.ofNat (n + 1)]
  else if 0x179 ≤ n ∧ n ≤ 0x17D ∧ n % 2 = 1 then [Char.ofNat (n + 1)]
  else if n = 0x1A0 ∨ n = 0x1AF then [Char.ofNat (n + 1)]
  else if n = 0x1E9E then [Char.ofNat 0xDF]
  else if 0x1E00 ≤ n ∧ n ≤ 0x1E94 ∧ n % 2 = 0 then [Char.ofNat (n + 1)]
  else if 0x1EA0 ≤ n ∧ n ≤ 0x1EFE ∧ n % 2 = 0 then [Char.ofNat (n + 1)]
  else [c]

/-- `question.lower()`: the character-wise lowering of the question. -/
def lowerData (q : String) : List Char := (q.data.map lowerChar).flatten

/-- Does any pattern of the set match the lowered question? -/
def intentMatches (pats : List Pat) (hay : List Char) : Bool :=
  pats.any (fun p => patMatch p hay)

/-- Embedding of `QuestionClassifier.classify`: the first entry of the
ordered table with a matching pattern wins; with no match the default
"tom_tat" is returned. -/
def classify (question : String) : String :=
  match patternsTable.find? (fun e => intentMatches e.2 (lowerData question)) with
  | some e => e.1
  | none => "tom_tat"

/-- A format template record.  Keys absent from a given source dict are
`none`; `structureList` is the dict key named `structure` (a Lean
keyword). -/
structure Template where
  structureList : List String
  sections : Option (Nat × Nat)
  include_tables : Option Bool
  numbering : Option String
  table_columns : Option (List String)
deriving DecidableEq

/-- The `templates["tom_tat"]` record, which is also the default of
`templates.get(question_type, templates["tom_tat"])`. -/
def tomTatTemplate : Template :=
  ⟨["title", "sections", "bullets", "conclusion"], some (3, 6), some false,
   some "roman", none⟩

/-- The `templates` dict of `get_format_template`, in source order. -/
def templatesTable : List (String × Template) :=
  [("tom_tat", tomTatTemplate),
   ("muc_tieu", ⟨["overview", "table", "metrics"], none, some true, some "roman", none⟩),
   ("cach_thuc_hien", ⟨["numbered_sections", "sub_bullets", "steps"], some (5, 8),
     some false, some "roman", none⟩),
   ("ke_hoach", ⟨["table", "timeline", "phases"], none, some true, none,
     some ["Nhiệm vụ", "Hoạt động", "Thời gian", "Căn cứ"]⟩),
   ("kho_khan", ⟨["sections", "bullets", "examples"], some (3, 5), none,
     some "roman", none⟩),
   ("ket_qua", ⟨["overview", "metrics", "bullets"], none, some true, some "roman", none⟩),
   ("so_sanh", ⟨["table", "analysis", "ranking"], none, some true, none,
     some ["Đơn vị", "Chỉ tiêu", "Kết quả", "Ghi chú"]⟩),
   ("goi_y", ⟨["sections", "action_items", "priority"], some (3, 5), none,
     some "roman", none⟩),
   ("hieu_qua", ⟨["overview", "metrics", "analysis"], none, some true, some "roman", none⟩),
   ("phuong_an", ⟨["options", "comparison", "recommendation"], none, some true,
     some "arabic", none⟩)]

/-- Embedding of `QuestionClassifier.get_format_template`:
`templates.get(question_type, templates["tom_tat"])`. -/
def get_format_template (question_type : String) : Template :=
  (templatesTable.lookup question_type).getD tomTatTemplate

end QuestionClassifier

namespace Config

/-- The OpenAI pricing table (USD per 1K tokens), keyed by model name.
Decimal literals are read as exact rationals. -/
def OPENAI_PRICING : List (String × ℚ × ℚ) :=
  [("gpt-4o", (0.0025, 0.01)),
   ("gpt-4o-mini", (0.00015, 0.0006)),
   ("gpt-4-turbo", (0.01, 0.03)),
   ("gpt-4", (0.03, 0.06)),
   ("gpt-3.5-turbo", (0.0005, 0.0015))]

/-- The Claude pricing table (USD per 1K tokens). -/
def CLAUDE_PRICING : List (String × ℚ × ℚ) :=
  [("claude-3-5-sonnet-20241022", (0.003, 0.015)),
   ("claude-3-opus", (0.015, 0.075)),
   ("claude-3-sonnet", (0.003, 0.015)),
   ("claude-3-haiku", (0.00025, 0.00125))]

/-- The fallback entry `OPENAI_PRICING["gpt-4o-mini"]`. -/
def openaiDefaultRate : ℚ × ℚ := (0.00015, 0.0006)

/-- The fallback entry `CLAUDE_PRICING["claude-3-5-sonnet-20241022"]`. -/
def claudeDefaultRate : ℚ × ℚ := (0.003, 0.015)

/-- Embedding of `Config.get_pricing` with the provider passed explicitly
(the source defaults a missing provider to the environment-chosen
`AI_PROVIDER`; the lookup logic per provider is unchanged). -/
def get_pricing (model provider : String) : ℚ × ℚ :=
  if provider = "openai" then (OPENAI_PRICING.lookup model).getD openaiDefaultRate
  else if provider = "claude" then (CLAUDE_PRICING.lookup model).getD claudeDefaultRate
  else (0, 0)

/-- Python `round(x, 6)` on the exact rational value: round to the nearest
multiple of 10^-6 (ties, which no claim exercises, are rounded up here
where Python rounds to even). -/
def round6 (x : ℚ) : ℚ := (⌊x * 1000000 + 1 / 2⌋ : ℤ) / 1000000

/-- The dict returned by `Config.calculate_cost`. -/
structure CostResult where
  input_cost : ℚ
  output_cost : ℚ
  total_cost : ℚ
  currency : String
deriving DecidableEq

/-- Embedding of `Config.calculate_cost`: per-1K-token linear scaling,
each component rounded to 6 decimal places; the total is the sum of the
unrounded components, rounded. -/
def calculate_cost (input_tokens output_tokens : Nat) (model provider : String) :
    CostResult :=
  let pricing := get_pricing model provider
  let input_cost : ℚ := ((input_tokens : ℚ) / 1000) * pricing.1
  let output_cost : ℚ := ((output_tokens : ℚ) / 1000) * pricing.2
  { input_cost := round6 input_cost
    output_cost := round6 output_cost
    total_cost := round6 (input_cost + output_cost)
    currency := "USD" }

end Config

namespace AISummarizer

/-- The character ceiling `max_doc_length = 15000` of `_build_user_prompt`. -/
def maxDocLength : Nat := 15000

/-- The continuation marker appended after a truncated document. -/
def contMarker : List Char := "\n\n[...Tài liệu còn tiếp...]".data

/-- The truncation step of `_build_user_prompt`:
`document[:15000] + marker` when the document exceeds the ceiling,
the document unchanged otherwise. -/
def truncate_document (d : List Char) : List Char :=
  if maxDocLength < d.length then d.take maxDocLength ++ contMarker else d

/-- Embedding of `AISummarizer._build_user_prompt`: the f-string layout
with the (possibly truncated) document, the question and the intent
label embedded at fixed positions. -/
def build_user_prompt (document question question_type : List Char) : List Char :=
  "NỘI DUNG TÀI LIỆU:\n".data ++ truncate_document document ++
  "\n\n---\n\nCÂU HỎI: ".data ++ question ++
  "\n\nLOẠI CÂU HỎI: ".data ++ question_type ++
  "\n\nHãy trả lời câu hỏi dựa trên nội dung tài liệu theo đúng format yêu cầu.".data

end AISummarizer

namespace ResponseFormatter

/-- Streaming scan implementing `re.sub(r'\n{3,}', '\n\n', text)`:
every maximal run of newlines keeps at most its first two newlines, which
leaves runs of one or two unchanged and collapses runs of three or more
to exactly two.  `run` counts the newlines already kept in the current
run. -/
def collapseNLGo (run : Nat) : List Char → List Char
  | [] => []
  | c :: t =>
    if c == '\n' then
      if run < 2 then c :: collapseNLGo (run + 1) t else collapseNLGo run t
    else c :: collapseNLGo 0 t

/-- The substitution `re.sub(r'\n{3,}', '\n\n', text)` of `_clean_text`. -/
def collapseNL (l : List Char) : List Char := collapseNLGo 0 l

/-- Streaming scan implementing `re.sub(r' +\n', '\n', text)`: spaces are
buffered in `pending`; a newline discards the buffered run (the regex
deletes spaces immediately before a newline), any other character flushes
it, and a run at the end of the text is kept. -/
def stripSpNLGo (pending : List Char) : List Char → List Char
  | [] => pending.reverse
  | c :: t =>
    if c == ' ' then stripSpNLGo (c :: pending) t
    else if c == '\n' then '\n' :: stripSpNLGo [] t
    else pending.reverse ++ c :: stripSpNLGo [] t

/-- The substitution `re.sub(r' +\n', '\n', text)` of `_clean_text`. -/
def stripSpNL (l : List Char) : List Char := stripSpNLGo [] l

/-- Streaming scan implementing
`re.sub(r'(#+[^\n]+)\n([^\n])', r'\1\n\n\2', text)`.  The state `st`
records whether the current line segment can end a match: 0 means no `#`
seen, 1 means a `#` seen with nothing after it yet, 2 means a `#`
followed by at least one further non-newline character (the leftmost
match of `#+[^\n]+` against the segment, which must reach the newline
because `[^\n]+` cannot cross it).  At a newline in state 2 followed by a
non-newline character the blank line is inserted and, as `re.sub` resumes
after the match, the matched character is consumed with the state
reset. -/
def headingFixGo (st : Nat) : List Char → List Char
  | [] => []
  | c :: t =>
    if c == '\n' then
      if st == 2 then
        match t with
        | d :: r =>
          if d != '\n' then '\n' :: '\n' :: d :: headingFixGo 0 r
          else '\n' :: '\n' :: headingFixGo 0 r
        | [] => ['\n']
      else '\n' :: headingFixGo 0 t
    else
      c :: headingFixGo (if c == '#' then (if st == 0 then 1 else 2)
        else (if st == 0 then 0 else 2)) t

/-- The heading substitution of `_clean_text`. -/
def headingFix (l : List Char) : List Char := headingFixGo 0 l

/-- The cleanup `_clean_text`: collapse blank-line runs, strip spaces
before line breaks, ensure a blank line after headings, then `strip()`,
in source order. -/
def clean_text (l : List Char) : List Char :=
  pyStrip (headingFix (stripSpNL (collapseNL l)))

/-- The substitution `re.sub(r'([^\n])\n(\|)', r'\1\n\n\2', text)` of
`_enhance_tables`: a blank line is inserted between a non-newline
character and a newline directly followed by a pipe; `re.sub` resumes
after the pipe, which the second pattern of the recursion consumes. -/
def tableAdjA : List Char → List Char
  | [] => []
  | c :: '\n' :: '|' :: t =>
    if c != '\n' then c :: '\n' :: '\n' :: '|' :: tableAdjA t
    else c :: tableAdjA ('\n' :: '|' :: t)
  | c :: t => c :: tableAdjA t

/-- Streaming scan implementing
`re.sub(r'(\|[^\n]+)\n([^\n|])', r'\1\n\n\2', text)`: as in
`headingFixGo`, the state records whether the segment since the last line
break contains a `|` followed by at least one further non-newline
character; at a newline in state 2 followed by a character that is
neither a newline nor a pipe, the blank line is inserted and the matched
character consumed. -/
def tableAdjBGo (st : Nat) : List Char → List Char
  | [] => []
  | c :: t =>
    if c == '\n' then
      if st == 2 then
        match t with
        | d :: r =>
          if d != '\n' && d != '|' then '\n' :: '\n' :: d :: tableAdjBGo 0 r
          else if d == '\n' then '\n' :: '\n' :: tableAdjBGo 0 r
          else '\n' :: '|' :: tableAdjBGo 1 r
        | [] => ['\n']
      else '\n' :: tableAdjBGo 0 t
    else
      c :: tableAdjBGo (if c == '|' then (if st == 0 then 1 else 2)
        else (if st == 0 then 0 else 2)) t

/-- The second substitution of `_enhance_tables`. -/
def tableAdjB (l : List Char) : List Char := tableAdjBGo 0 l

/-- Embedding of `_enhance_tables`: the two substitutions in source
order. -/
def enhance_tables (l : List Char) : List Char := tableAdjB (tableAdjA l)

/-- Roman-numeral characters of the `_enhance_structure` pattern. -/
def isRoman (c : Char) : Bool := c == 'I' || c == 'V' || c == 'X'

/-- Streaming scan implementing
`re.sub(r'([IVX]+\.) ', r'\n\n\1 ', text)`: Roman-numeral characters are
buffered in `run`; when the buffered run is non-empty and a period
directly followed by a space arrives, the match is emitted prefixed by a
blank line (`re.sub` resumes after the space); otherwise the buffer is
flushed unchanged.  Only the maximal run can match, because a shorter
`[IVX]+` would be followed by a Roman character, not the required
period. -/
def structAdjGo (run : List Char) : List Char → List Char
  | [] => run.reverse
  | c :: t =>
    if isRoman c then structAdjGo (c :: run) t
    else if c == '.' && run != [] then
      match t with
      | ' ' :: r => '\n' :: '\n' :: run.reverse ++ '.' :: ' ' :: structAdjGo [] r
      | [] => run.reverse ++ ['.']
      | d :: r => run.reverse ++ '.' :: structAdjGo [] (d :: r)
    else run.reverse ++ c :: structAdjGo [] t

/-- Embedding of `_enhance_structure`. -/
def enhance_structure (l : List Char) : List Char := structAdjGo [] l

/-- Embedding of `ResponseFormatter.format`: clean the text, then apply
the table enhancement for the table-oriented intents and the structure
enhancement for the hierarchical intents. -/
def format (answer : List Char) (question_type : String) : List Char :=
  let a := clean_text answer
  let a := if ["muc_tieu", "ket_qua", "so_sanh", "ke_hoach"].contains question_type
    then enhance_tables a else a
  if ["tom_tat", "cach_thuc_hien", "kho_khan", "goi_y"].contains question_type
    then enhance_structure a else a

end ResponseFormatter

namespace Main

/-- The per-item data of the batch loop that the endpoint accumulates:
the item's cost total and token total. -/
structure BatchItemResult where
  total_cost : ℚ
  total_tokens : Nat
deriving DecidableEq

/-- The `for file, q in zip(files, questions_list)` loop of
`batch_summarize`.  Each list element is the outcome of the
`summarize_document` call for that item: `Except.error e` when the call
raised (an `HTTPException` from a parse or provider failure), which
propagates out of the loop uncaught and aborts the batch. -/
def batchLoop (items : List (Except String BatchItemResult))
    (results : List BatchItemResult) (total_cost : ℚ) (total_tokens : Nat) :
    Except String (List BatchItemResult × ℚ × Nat) :=
  match items with
  | [] => .ok (results, total_cost, total_tokens)
  | .error e :: _ => .error e
  | .ok r :: rest =>
    batchLoop rest (results ++ [r]) (total_cost + r.total_cost)
      (total_tokens + r.total_tokens)

/-- Embedding of the `batch_summarize` endpoint body after the length
check: run the loop; on success report the results and the summary with
`round(total_cost, 6)`; an item failure is re-raised as the batch's
single error (`HTTPException(500)`), with no partial results. -/
def batch_summarize (items : List (Except String BatchItemResult)) :
    Except String (List BatchItemResult × ℚ × Nat) :=
  match batchLoop items [] 0 0 with
  | .error e => .error e
  | .ok (rs, tc, tt) => .ok (rs, Config.round6 tc, tt)

end Main

/-! Shared helper lemmas. -/

/-- A primary text whose stripped length beats the threshold is non-empty. -/
theorem parse_pdf_text_ne_of_lt (pages : List (Option (List Char)))
    (h : DocumentParser.meaningfulThreshold <
      (pyStrip (DocumentParser.parse_pdf_text pages)).length) :
    DocumentParser.parse_pdf_text pages ≠ [] := by
  intro h0
  rw [h0] at h
  exact absurd h (by decide)

/-- Above the threshold, `_parse_pdf` accepts the primary text. -/
theorem parse_pdf_primary (pages : List (Option (List Char))) (ocr_available : Bool)
    (ocr : Except String (List Char))
    (h : DocumentParser.meaningfulThreshold <
      (pyStrip (DocumentParser.parse_pdf_text pages)).length) :
    DocumentParser.parse_pdf pages ocr_available ocr
      = .ok (pyStrip (DocumentParser.parse_pdf_text pages)) := by
  simp only [DocumentParser.parse_pdf]
  rw [if_pos ⟨parse_pdf_text_ne_of_lt pages h, h⟩]

/-- At or below the threshold with OCR available, a truthy OCR text is
returned stripped, whatever its size. -/
theorem parse_pdf_ocr (pages : List (Option (List Char))) (t : List Char)
    (h : ¬ DocumentParser.meaningfulThreshold <
      (pyStrip (DocumentParser.parse_pdf_text pages)).length)
    (ht : t ≠ []) :
    DocumentParser.parse_pdf pages true (.ok t) = .ok (pyStrip t) := by
  simp only [DocumentParser.parse_pdf]
  rw [if_neg (fun hc => h hc.2)]
  simp [ht]

/-- At or below the threshold with OCR unavailable, `_parse_pdf` raises
the generic exception. -/
theorem parse_pdf_noOCR (pages : List (Option (List Char)))
    (ocr : Except String (List Char))
    (h : ¬ DocumentParser.meaningfulThreshold <
      (pyStrip (DocumentParser.parse_pdf_text pages)).length) :
    DocumentParser.parse_pdf pages false ocr = .error DocumentParser.pdfGenericError := by
  simp only [DocumentParser.parse_pdf]
  rw [if_neg (fun hc => h hc.2)]
  rfl

/-- An error item makes the batch loop abort with that error, whatever
was accumulated before it. -/
theorem batchLoop_append_error (e : String)
    (rest : List (Except String Main.BatchItemResult)) :
    ∀ (pre : List Main.BatchItemResult) (acc : List Main.BatchItemResult)
      (tc : ℚ) (tt : Nat),
      Main.batchLoop (pre.map Except.ok ++ Except.error e :: rest) acc tc tt
        = .error e := by
  intro pre
  induction pre with
  | nil => intro acc tc tt; rfl
  | cons r pre ih =>
    intro acc tc tt
    simp only [List.map_cons, List.cons_append, Main.batchLoop]
    exact ih _ _ _

/-! Claims. -/

/-- Claim C1, counterexample.  The claim says the extractor returns
whichever phase yields the larger usable text.  For a PDF whose single
page yields 50 characters of stripped primary text (below the 100
threshold) and whose OCR phase yields the 2-character text "bb", the
code returns the OCR text even though the primary phase's usable text is
larger. -/
theorem c1_counterexample :
    DocumentParser.parse_pdf [some (List.replicate 50 'a')] true (.ok ['b', 'b'])
      = .ok ['b', 'b'] ∧
    (pyStrip (DocumentParser.parse_pdf_text [some (List.replicate 50 'a')])).length = 50 ∧
    (['b', 'b'] : List Char).length = 2 ∧ (2 : Nat) < 50 :=
  ⟨rfl, rfl, rfl, by decide⟩

/-- Claim C1 (amended): the primary page-by-page text is accepted exactly
when its stripped length exceeds the fixed 100-character threshold; at or
below the threshold, when OCR is available its non-empty result is
returned stripped regardless of which phase yielded more text, and when
OCR is unavailable the extractor fails with the generic extraction
exception. -/
theorem c1_amended (pages : List (Option (List Char))) (ocr_available : Bool)
    (ocr : Except String (List Char)) (t : List Char) :
    (DocumentParser.meaningfulThreshold <
        (pyStrip (DocumentParser.parse_pdf_text pages)).length →
      DocumentParser.parse_pdf pages ocr_available ocr
        = .ok (pyStrip (DocumentParser.parse_pdf_text pages))) ∧
    ((pyStrip (DocumentParser.parse_pdf_text pages)).length ≤
        DocumentParser.meaningfulThreshold → t ≠ [] →
      DocumentParser.parse_pdf pages true (.ok t) = .ok (pyStrip t)) ∧
    ((pyStrip (DocumentParser.parse_pdf_text pages)).length ≤
        DocumentParser.meaningfulThreshold →
      DocumentParser.parse_pdf pages false ocr = .error DocumentParser.pdfGenericError) :=
  ⟨fun h => parse_pdf_primary pages ocr_available ocr h,
   fun h ht => parse_pdf_ocr pages t (Nat.not_lt.mpr h) ht,
   fun h => parse_pdf_noOCR pages ocr (Nat.not_lt.mpr h)⟩

/-- Claim C1 amended, witness: a 101-character single-page primary text
is accepted; a 1-character page with OCR text available returns the OCR
text. -/
theorem c1_amended_witness :
    DocumentParser.parse_pdf [some (List.replicate 101 'a')] false (.ok [])
      = .ok (pyStrip (DocumentParser.parse_pdf_text [some (List.replicate 101 'a')])) ∧
    DocumentParser.parse_pdf [some ['x']] true (.ok ['y']) = .ok (pyStrip ['y']) :=
  ⟨(c1_amended [some (List.replicate 101 'a')] false (.ok []) []).1 (by decide),
   (c1_amended [some ['x']] true (.ok ['y']) ['y']).2.1 (by decide) (by decide)⟩

/-- Claim C2, counterexample.  With OCR unavailable (first conjunct) the
extractor raises exactly the same generic exception as when OCR is
available but yields nothing (second conjunct): there is no distinct
"OCR not available" error for callers to distinguish. -/
theorem c2_counterexample :
    DocumentParser.parse_pdf [] false (.ok []) = .error DocumentParser.pdfGenericError ∧
    DocumentParser.parse_pdf [] true (.ok []) = .error DocumentParser.pdfGenericError ∧
    DocumentParser.pdfGenericError ≠ "OCR not available" :=
  ⟨rfl, rfl, by decide⟩

/-- Claim C2 (amended): for every PDF whose primary extraction strips to
at most the threshold, if OCR is unavailable the extractor raises the
same generic "Could not extract text from PDF using any method" exception
as the empty-result case; the two failure kinds are not distinguishable
by error value. -/
theorem c2_amended (pages : List (Option (List Char)))
    (ocr : Except String (List Char))
    (h : (pyStrip (DocumentParser.parse_pdf_text pages)).length ≤
      DocumentParser.meaningfulThreshold) :
    DocumentParser.parse_pdf pages false ocr = .error DocumentParser.pdfGenericError :=
  parse_pdf_noOCR pages ocr (Nat.not_lt.mpr h)

/-- Claim C2 amended, witness: a PDF with a single 1-character page and
no OCR fails with the generic message. -/
theorem c2_amended_witness :
    DocumentParser.parse_pdf [some ['x']] false (.ok ['y'])
      = .error DocumentParser.pdfGenericError :=
  c2_amended [some ['x']] (.ok ['y']) (by decide)

/-- Claim C3, counterexample.  In a batch of three items where the second
fails, the endpoint returns a single error: the successful first and
third items produce no results at all, contradicting the claim that the
other N-1 items are still returned with the failure reported
independently. -/
theorem c3_counterexample :
    Main.batch_summarize [.ok ⟨0.5, 5⟩, .error "extraction failed", .ok ⟨0.25, 3⟩]
      = .error "extraction failed" := rfl

/-- Claim C3 (amended): a failing item aborts the whole batch.  Whatever
items were already processed, the first item failure is re-raised as the
batch's only outcome and no per-item results are returned. -/
theorem c3_amended (pre : List Main.BatchItemResult) (e : String)
    (rest : List (Except String Main.BatchItemResult)) :
    Main.batch_summarize (pre.map Except.ok ++ Except.error e :: rest) = .error e := by
  unfold Main.batch_summarize
  rw [batchLoop_append_error]

/-- Claim C4: a document at or under the 15000-character ceiling is
embedded in the user prompt unmodified, and the truncation step is
idempotent: applied twice with the same ceiling it yields the same result
as applied once. -/
theorem c4 (d q t : List Char) :
    (d.length ≤ AISummarizer.maxDocLength →
      AISummarizer.build_user_prompt d q t =
        "NỘI DUNG TÀI LIỆU:\n".data ++ d ++ "\n\n---\n\nCÂU HỎI: ".data ++ q ++
        "\n\nLOẠI CÂU HỎI: ".data ++ t ++
        "\n\nHãy trả lời câu hỏi dựa trên nội dung tài liệu theo đúng format yêu cầu.".data) ∧
    AISummarizer.truncate_document (AISummarizer.truncate_document d)
      = AISummarizer.truncate_document d := by
  constructor
  · intro h
    unfold AISummarizer.build_user_prompt AISummarizer.truncate_document
    rw [if_neg (by omega)]
  · by_cases h : AISummarizer.maxDocLength < d.length
    · have h1 : (d.take AISummarizer.maxDocLength).length = AISummarizer.maxDocLength := by
        rw [List.length_take]
        omega
      have hm : 0 < AISummarizer.contMarker.length := by decide
      unfold AISummarizer.truncate_document
      rw [if_pos h, if_pos (by rw [List.length_append, h1]; omega)]
      rw [List.take_append_eq_append_take, h1]
      simp [List.take_take]
    · unfold AISummarizer.truncate_document
      rw [if_neg h, if_neg h]

/-- Claim C4, witness: a 3-character document is embedded unmodified. -/
theorem c4_witness :
    AISummarizer.build_user_prompt "abc".data "q".data "tom_tat".data =
      "NỘI DUNG TÀI LIỆU:\n".data ++ "abc".data ++ "\n\n---\n\nCÂU HỎI: ".data ++
      "q".data ++ "\n\nLOẠI CÂU HỎI: ".data ++ "tom_tat".data ++
      "\n\nHãy trả lời câu hỏi dựa trên nội dung tài liệu theo đúng format yêu cầu.".data :=
  (c4 "abc".data "q".data "tom_tat".data).1 (by decide)

/-- The first element of a list satisfying a predicate, with nothing
satisfying it earlier, is what `find?` returns. -/
theorem find?_eq_get_of_first {α : Type} (p : α → Bool) :
    ∀ (l : List α) (i : Nat) (hi : i < l.length),
      p (l.get ⟨i, hi⟩) = true →
      (∀ k (hk : k < l.length), k < i → p (l.get ⟨k, hk⟩) = false) →
      l.find? p = some (l.get ⟨i, hi⟩)
  | [], i, hi, _, _ => absurd hi (by simp)
  | a :: l, 0, _, hp, _ => by
    simp only [List.get] at hp ⊢
    rw [List.find?_cons_of_pos _ hp]
  | a :: l, i + 1, hi, hp, hbef => by
    have ha : p a = false := hbef 0 (by omega) (by omega)
    rw [List.find?_cons_of_neg _ (by simp [ha])]
    simp only [List.get] at hp ⊢
    exact find?_eq_get_of_first p l i (by simpa using hi) hp
      (fun k hk hki => by
        have := hbef (k + 1) (by simpa using hk) (by omega)
        simpa using this)

/-- Claim C5: when the question matches some pattern of the table entry
at index `i` and some pattern of the entry at a later index `j`, and no
earlier entry matches, `classify` returns the intent at index `i`: the
first intent in the fixed priority order with any matching pattern wins,
on the lowercased question. -/
theorem c5 (q : String) (i j : Nat)
    (hi : i < QuestionClassifier.patternsTable.length)
    (hj : j < QuestionClassifier.patternsTable.length) (hij : i < j)
    (hmi : QuestionClassifier.intentMatches
      (QuestionClassifier.patternsTable.get ⟨i, hi⟩).2
      (QuestionClassifier.lowerData q) = true)
    (hmj : QuestionClassifier.intentMatches
      (QuestionClassifier.patternsTable.get ⟨j, hj⟩).2
      (QuestionClassifier.lowerData q) = true)
    (hfirst : ∀ k (hk : k < QuestionClassifier.patternsTable.length), k < i →
      QuestionClassifier.intentMatches
        (QuestionClassifier.patternsTable.get ⟨k, hk⟩).2
        (QuestionClassifier.lowerData q) = false) :
    QuestionClassifier.classify q = (QuestionClassifier.patternsTable.get ⟨i, hi⟩).1 := by
  unfold QuestionClassifier.classify
  rw [find?_eq_get_of_first _ _ i hi hmi hfirst]

/-- Claim C5, witness: the uppercase question "TÓM TẮT MỤC TIÊU" lowers
to "tóm tắt mục tiêu" and matches both the "tom_tat" patterns (index 0,
via "tóm tắt") and the "muc_tieu" patterns (index 1, via "mục tiêu"); it
classifies as "tom_tat", the earlier intent, exercising the
case-insensitive matching on Vietnamese capitals. -/
theorem c5_witness :
    QuestionClassifier.classify "TÓM TẮT MỤC TIÊU"
      = (QuestionClassifier.patternsTable.get ⟨0, by decide⟩).1 :=
  c5 "TÓM TẮT MỤC TIÊU" 0 1 (by decide) (by decide) (by decide)
    (by decide) (by decide) (fun k _ hk => absurd hk (Nat.not_lt_zero k))

/-- Evaluate `round6` by giving the floor explicitly. -/
theorem round6_eq (x : ℚ) (n : ℤ) (h1 : (n : ℚ) ≤ x * 1000000 + 1 / 2)
    (h2 : x * 1000000 + 1 / 2 < n + 1) :
    Config.round6 x = (n : ℚ) / 1000000 := by
  unfold Config.round6
  rw [show (⌊x * 1000000 + 1 / 2⌋ : ℤ) = n from Int.floor_eq_iff.mpr ⟨h1, h2⟩]

/-- Claim C6: for usage 1000 input and 500 output tokens on model
"gpt-4o-mini" under provider "openai", the cost record has input cost
0.00015, output cost 0.0003 and total cost exactly 0.00045, each
component computed as tokens/1000 times the per-1K rate and rounded to 6
decimal places. -/
theorem c6 :
    (Config.calculate_cost 1000 500 "gpt-4o-mini" "openai").input_cost = 0.00015 ∧
    (Config.calculate_cost 1000 500 "gpt-4o-mini" "openai").output_cost = 0.0003 ∧
    (Config.calculate_cost 1000 500 "gpt-4o-mini" "openai").total_cost = 0.00045 ∧
    (Config.calculate_cost 1000 500 "gpt-4o-mini" "openai").currency = "USD" := by
  have hp : Config.get_pricing "gpt-4o-mini" "openai" = (0.00015, 0.0006) := rfl
  unfold Config.calculate_cost
  rw [hp]
  refine ⟨?_, ?_, ?_, rfl⟩
  · show Config.round6 (((1000 : Nat) : ℚ) / 1000 * 0.00015) = 0.00015
    rw [show (((1000 : Nat) : ℚ) / 1000 * 0.00015) = 3 / 20000 by norm_num,
      round6_eq (3 / 20000) 150 (by norm_num) (by norm_num)]
    norm_num
  · show Config.round6 (((500 : Nat) : ℚ) / 1000 * 0.0006) = 0.0003
    rw [show (((500 : Nat) : ℚ) / 1000 * 0.0006) = 3 / 10000 by norm_num,
      round6_eq (3 / 10000) 300 (by norm_num) (by norm_num)]
    norm_num
  · show Config.round6 (((1000 : Nat) : ℚ) / 1000 * 0.00015 +
      ((500 : Nat) : ℚ) / 1000 * 0.0006) = 0.00045
    rw [show (((1000 : Nat) : ℚ) / 1000 * 0.00015 +
        ((500 : Nat) : ℚ) / 1000 * 0.0006) = 9 / 20000 by norm_num,
      round6_eq (9 / 20000) 450 (by norm_num) (by norm_num)]
    norm_num

/-- Claim C7, counterexample.  The text "A I. B" is already normalized
(the cleanup leaves it unchanged), yet formatting it twice under the
"tom_tat" intent differs from formatting it once: the structure
enhancement re-inserts a blank line before the Roman marker on every
application. -/
theorem c7_counterexample :
    ResponseFormatter.clean_text "A I. B".data = "A I. B".data ∧
    ResponseFormatter.format "A I. B".data "tom_tat" = "A \n\nI. B".data ∧
    ResponseFormatter.format (ResponseFormatter.format "A I. B".data "tom_tat") "tom_tat"
      = "A\n\n\n\nI. B".data ∧
    ("A\n\n\n\nI. B".data : List Char) ≠ "A \n\nI. B".data :=
  ⟨rfl, rfl, rfl, by decide⟩

/-- With no pipe characters the first table substitution is the
identity. -/
theorem tableAdjA_id : ∀ (l : List Char), (∀ c ∈ l, c ≠ '|') →
    ResponseFormatter.tableAdjA l = l := by
  intro l
  induction l with
  | nil => intro; rfl
  | cons c t ih =>
    intro h
    have hstep : ResponseFormatter.tableAdjA (c :: t)
        = c :: ResponseFormatter.tableAdjA t := by
      rw [ResponseFormatter.tableAdjA.eq_def]
      split
      · simp_all
      · rename_i x c2 r hif
        injection hif with hif1 hif2
        exact absurd (h '|' (by rw [hif2]; simp)) (by simp)
      · rename_i c2 t2 heq
        injection heq with heq1 heq2
        rw [heq1, heq2]
    rw [hstep, ih (fun d hd => h d (by simp [hd]))]

/-- With no pipe characters the second table substitution is the
identity from the initial state. -/
theorem tableAdjBGo_id : ∀ (l : List Char), (∀ c ∈ l, c ≠ '|') →
    ResponseFormatter.tableAdjBGo 0 l = l := by
  intro l
  induction l with
  | nil => intro; rfl
  | cons c t ih =>
    intro h
    have hc : c ≠ '|' := h c (by simp)
    have iht := ih (fun d hd => h d (by simp [hd]))
    by_cases hnl : c = '\n'
    · subst hnl
      rw [ResponseFormatter.tableAdjBGo.eq_def]
      simp [iht]
    · rw [ResponseFormatter.tableAdjBGo.eq_def]
      simp [hnl, hc, iht]

/-- With no Roman-numeral characters the structure substitution is the
identity from the empty buffer. -/
theorem structAdjGo_id : ∀ (l : List Char),
    (∀ c ∈ l, ResponseFormatter.isRoman c = false) →
    ResponseFormatter.structAdjGo [] l = l := by
  intro l
  induction l with
  | nil => intro; rfl
  | cons c t ih =>
    intro h
    have hc : ResponseFormatter.isRoman c = false := h c (by simp)
    have iht := ih (fun d hd => h d (by simp [hd]))
    rw [ResponseFormatter.structAdjGo.eq_def]
    simp [hc, iht]

/-- On already-normalized text with no pipes and no Roman-numeral
characters, `format` is the identity for every intent. -/
theorem format_id (qt : String) (x : List Char)
    (h1 : ResponseFormatter.clean_text x = x)
    (h2 : ∀ c ∈ x, c ≠ '|')
    (h3 : ∀ c ∈ x, ResponseFormatter.isRoman c = false) :
    ResponseFormatter.format x qt = x := by
  have hT : ResponseFormatter.enhance_tables x = x := by
    unfold ResponseFormatter.enhance_tables ResponseFormatter.tableAdjB
    rw [tableAdjA_id x h2, tableAdjBGo_id x h2]
  have hS : ResponseFormatter.enhance_structure x = x := by
    unfold ResponseFormatter.enhance_structure
    exact structAdjGo_id x h3
  simp only [ResponseFormatter.format]
  rw [h1]
  split_ifs <;> simp [hT, hS]

/-- Claim C7 (amended): `format` applied twice agrees with `format`
applied once on already-normalized text (a fixed point of the cleanup)
that contains no markdown pipe and no Roman-numeral character — on such
text every intent's formatting is the identity.  In general the claim
fails: for structure-enhanced intents, a Roman marker preceded by
same-line text gains one more blank line on each application. -/
theorem c7_amended (qt : String) (x : List Char)
    (h1 : ResponseFormatter.clean_text x = x)
    (h2 : ∀ c ∈ x, c ≠ '|')
    (h3 : ∀ c ∈ x, ResponseFormatter.isRoman c = false) :
    ResponseFormatter.format x qt = x ∧
    ResponseFormatter.format (ResponseFormatter.format x qt) qt
      = ResponseFormatter.format x qt := by
  have hid := format_id qt x h1 h2 h3
  exact ⟨hid, by rw [hid]; exact hid⟩

/-- Claim C7 amended, witness: "abc" is normalized, pipe-free and
Roman-free; formatting under "muc_tieu" twice equals formatting once. -/
theorem c7_amended_witness :
    ResponseFormatter.format "abc".data "muc_tieu" = "abc".data ∧
    ResponseFormatter.format (ResponseFormatter.format "abc".data "muc_tieu")
      "muc_tieu" = ResponseFormatter.format "abc".data "muc_tieu" :=
  c7_amended "muc_tieu" "abc".data rfl (by decide) (by decide)

/-- Claim C8, counterexample.  The file "abc\n" (bytes 97 98 99 10) is
valid UTF-8 and decodes to "abc\n", but the extractor returns the
stripped text "abc": the result is not byte-identical to the file's
content, because `_parse_txt` strips what it read. -/
theorem c8_counterexample :
    DocumentParser.utf8Decode [97, 98, 99, 10] = some ['a', 'b', 'c', '\n'] ∧
    DocumentParser.parse_txt [97, 98, 99, 10] = .ok ['a', 'b', 'c'] ∧
    (['a', 'b', 'c'] : List Char) ≠ ['a', 'b', 'c', '\n'] :=
  ⟨rfl, rfl, by decide⟩

/-- Claim C8 (amended): extraction walks the ordered encoding list and
returns the first decode that, after the universal-newline translation
of text-mode reading and Python stripping, is non-empty — returned in
that translated, stripped form.  The result therefore equals the file's
decoded content only when that content needs no newline translation and
carries no leading or trailing whitespace.  The conjuncts cover the
ordered fall-through: a usable UTF-8 decode wins; with UTF-8 unusable a
usable latin-1 decode wins; with both unusable a usable cp1252 decode
wins; and with every stage unusable (the fourth encoding, iso-8859-1,
being the same codec as the second) the extractor raises the decode
error. -/
theorem c8_amended (bs : List Nat) :
    (∀ s, DocumentParser.utf8Decode bs = some s →
      pyStrip (DocumentParser.universalNewlines s) ≠ [] →
      DocumentParser.parse_txt bs = .ok (pyStrip (DocumentParser.universalNewlines s))) ∧
    (∀ s, DocumentParser.tryDecode DocumentParser.utf8Decode bs = none →
      DocumentParser.latin1Decode bs = some s →
      pyStrip (DocumentParser.universalNewlines s) ≠ [] →
      DocumentParser.parse_txt bs = .ok (pyStrip (DocumentParser.universalNewlines s))) ∧
    (∀ s, DocumentParser.tryDecode DocumentParser.utf8Decode bs = none →
      DocumentParser.tryDecode DocumentParser.latin1Decode bs = none →
      DocumentParser.cp1252Decode bs = some s →
      pyStrip (DocumentParser.universalNewlines s) ≠ [] →
      DocumentParser.parse_txt bs = .ok (pyStrip (DocumentParser.universalNewlines s))) ∧
    (DocumentParser.tryDecode DocumentParser.utf8Decode bs = none →
      DocumentParser.tryDecode DocumentParser.latin1Decode bs = none →
      DocumentParser.tryDecode DocumentParser.cp1252Decode bs = none →
      DocumentParser.parse_txt bs = .error DocumentParser.txtDecodeError) := by
  refine ⟨?_, ?_, ?_, ?_⟩
  · intro s hdec hne
    unfold DocumentParser.parse_txt DocumentParser.tryDecode
    rw [hdec]
    simp [hne]
  · intro s h1 hdec hne
    have h2 : DocumentParser.tryDecode DocumentParser.latin1Decode bs
        = some (pyStrip (DocumentParser.universalNewlines s)) := by
      unfold DocumentParser.tryDecode
      rw [hdec]
      simp [hne]
    unfold DocumentParser.parse_txt
    rw [h1, h2]
  · intro s h1 h2 hdec hne
    have h3 : DocumentParser.tryDecode DocumentParser.cp1252Decode bs
        = some (pyStrip (DocumentParser.universalNewlines s)) := by
      unfold DocumentParser.tryDecode
      rw [hdec]
      simp [hne]
    unfold DocumentParser.parse_txt
    rw [h1, h2, h3]
  · intro h1 h2 h3
    unfold DocumentParser.parse_txt
    rw [h1, h2, h3]

/-- Claim C8 amended, witness: the file "hi" decodes through UTF-8 and is
returned unchanged; the CRLF file "a\r\nb" (bytes 97 13 10 98) decodes
through UTF-8 and is returned with the newline pair translated, as the
text-mode read of the source does, namely as "a\nb". -/
theorem c8_amended_witness :
    DocumentParser.parse_txt [104, 105]
      = .ok (pyStrip (DocumentParser.universalNewlines ['h', 'i'])) ∧
    DocumentParser.parse_txt [97, 13, 10, 98]
      = .ok (pyStrip (DocumentParser.universalNewlines ['a', '\r', '\n', 'b'])) ∧
    pyStrip (DocumentParser.universalNewlines ['a', '\r', '\n', 'b'])
      = ['a', '\n', 'b'] :=
  ⟨(c8_amended [104, 105]).1 ['h', 'i'] rfl (by decide),
   (c8_amended [97, 13, 10, 98]).1 ['a', '\r', '\n', 'b'] rfl (by decide),
   by decide⟩

/-- Claim C9: for both providers, looking up a model name absent from
the pricing table yields the provider's designated default model's entry
(gpt-4o-mini for openai, claude-3-5-sonnet-20241022 for claude), and the
fallback rates are exactly those models' table entries; the lookup is a
total function, never an error. -/
theorem c9 (model : String) :
    Config.OPENAI_PRICING.lookup "gpt-4o-mini" = some Config.openaiDefaultRate ∧
    Config.CLAUDE_PRICING.lookup "claude-3-5-sonnet-20241022"
      = some Config.claudeDefaultRate ∧
    (Config.OPENAI_PRICING.lookup model = none →
      Config.get_pricing model "openai" = Config.openaiDefaultRate) ∧
    (Config.CLAUDE_PRICING.lookup model = none →
      Config.get_pricing model "claude" = Config.claudeDefaultRate) := by
  refine ⟨rfl, rfl, ?_, ?_⟩
  · intro h
    unfold Config.get_pricing
    rw [if_pos rfl, h]
    rfl
  · intro h
    unfold Config.get_pricing
    rw [if_neg (by decide), if_pos rfl, h]
    rfl

/-- Claim C9, witness: the unknown model name "unknown-model-x" falls
back to the default entry under both providers. -/
theorem c9_witness :
    Config.get_pricing "unknown-model-x" "openai" = Config.openaiDefaultRate ∧
    Config.get_pricing "unknown-model-x" "claude" = Config.claudeDefaultRate :=
  ⟨(c9 "unknown-model-x").2.2.1 (by decide), (c9 "unknown-model-x").2.2.2 (by decide)⟩

/-- A successful association-list lookup returns one of the stored
values. -/
theorem lookup_mem {β : Type} :
    ∀ (l : List (String × β)) (k : String) (v : β),
      l.lookup k = some v → v ∈ l.map Prod.snd := by
  intro l
  induction l with
  | nil => intro k v h; simp [List.lookup] at h
  | cons p t ih =>
    intro k v h
    rw [List.lookup] at h
    cases hk : k == p.1 with
    | true =>
      rw [hk] at h
      injection h with h1
      simp [← h1]
    | false =>
      rw [hk] at h
      exact List.mem_cons_of_mem _ (ih k v h)

/-- Claim C10: `classify` always returns one of the ten intent names,
returning the default "tom_tat" whenever no pattern matches, and the
template lookup is total: for the classified intent it returns a
structurally valid template (non-empty structure list), and any
unrecognized value falls back to the "tom_tat" template. -/
theorem c10 (q : String) :
    QuestionClassifier.classify q ∈
      ["tom_tat", "muc_tieu", "cach_thuc_hien", "ke_hoach", "kho_khan",
       "ket_qua", "so_sanh", "goi_y", "hieu_qua", "phuong_an"] ∧
    ((∀ e ∈ QuestionClassifier.patternsTable,
        QuestionClassifier.intentMatches e.2 (QuestionClassifier.lowerData q) = false) →
      QuestionClassifier.classify q = "tom_tat") ∧
    (QuestionClassifier.get_format_template
      (QuestionClassifier.classify q)).structureList ≠ [] ∧
    (∀ s : String, QuestionClassifier.templatesTable.lookup s = none →
      QuestionClassifier.get_format_template s = QuestionClassifier.tomTatTemplate) := by
  have hvalid : ∀ s : String,
      (QuestionClassifier.get_format_template s).structureList ≠ [] := by
    intro s
    unfold QuestionClassifier.get_format_template
    cases hl : QuestionClassifier.templatesTable.lookup s with
    | none => simp; decide
    | some tpl =>
      have hm := lookup_mem _ _ _ hl
      simp only [Option.getD_some]
      fin_cases hm <;> decide
  refine ⟨?_, ?_, hvalid _, ?_⟩
  · unfold QuestionClassifier.classify
    cases hf : QuestionClassifier.patternsTable.find?
        (fun e => QuestionClassifier.intentMatches e.2 (QuestionClassifier.lowerData q)) with
    | none => simp
    | some e =>
      have he := List.mem_of_find?_eq_some hf
      fin_cases he <;> simp
  · intro hall
    unfold QuestionClassifier.classify
    rw [List.find?_eq_none.mpr (fun e he => by simp [hall e he])]
  · intro s hs
    unfold QuestionClassifier.get_format_template
    rw [hs]
    rfl

/-- Claim C10, witness: "zzz" matches no pattern, classifies as the
default "tom_tat", and its template is structurally valid; the uppercase
Vietnamese question "MỤC TIÊU ĐẾN NĂM 2030 LÀ GÌ?" classifies into the
ten intents, and concretely as "muc_tieu" after case folding, as the
source does. -/
theorem c10_witness :
    QuestionClassifier.classify "zzz" = "tom_tat" ∧
    (QuestionClassifier.get_format_template
      (QuestionClassifier.classify "zzz")).structureList ≠ [] ∧
    QuestionClassifier.classify "MỤC TIÊU ĐẾN NĂM 2030 LÀ GÌ?" ∈
      ["tom_tat", "muc_tieu", "cach_thuc_hien", "ke_hoach", "kho_khan",
       "ket_qua", "so_sanh", "goi_y", "hieu_qua", "phuong_an"] ∧
    QuestionClassifier.classify "MỤC TIÊU ĐẾN NĂM 2030 LÀ GÌ?" = "muc_tieu" :=
  ⟨(c10 "zzz").2.1 (by decide), (c10 "zzz").2.2.1,
   (c10 "MỤC TIÊU ĐẾN NĂM 2030 LÀ GÌ?").1, by decide⟩
